import Mathlib

/-!
Shallow embedding of the core logic of `src/components/Weather.jsx`
(a client-side weather lookup widget):

* `getWeatherIcon` — the icon-selection function (spec name: `selectIcon`),
  lines 15–84 of the source;
* `fetchWeatherWithUnit` — the city-name fetch path, lines 94–147;
* `toggleUnit` — the unit toggle, lines 159–166;
* `getCurrentLocationWeather` — the geolocation fetch path, lines 171–216.

JS numbers are modelled as `Rat` (temperatures, coordinates) or `Int`
(condition codes) / `Nat` (HTTP status).  A JS value that may be absent
(`undefined`) is an `Option`.  Reading a property of `undefined` is a
TypeError; where the source can do that, the embedded function returns
`none` (crash) instead of `some icon`.  The component's pieces of React
state become a `ComponentState` record; a fetch is a pure function from
the environment's inputs (HTTP response, geolocation outcome, clock) to
the final state together with the list of network requests it issued.
Error-message strings set by `setError` are represented by the
`FetchError` constructor corresponding to the literal message thrown at
that site; `setError('')` is `none`.
-/

namespace WeatherApp

/-- The seven icon assets imported at the top of the source file. -/
inductive Icon where
  | clear
  | cloudy
  | rainy
  | snow
  | storm
  | downpour
  | atmospheric
  deriving DecidableEq, Repr

/-- The `main` section of an OpenWeatherMap response body; only `temp` is
read by the decision logic (`feels_like`, `humidity`, `pressure` are
display-only). -/
structure WeatherMain where
  temp : Rat
  deriving DecidableEq, Repr

/-- One element of the `weather` array; only `id` is read by the decision
logic. -/
structure WeatherCond where
  id : Int
  deriving DecidableEq, Repr

/-- A parsed JSON response body, restricted to the fields the embedded
logic reads: `name` (geolocation path writes it into the query box),
`main` and `weather` (validity check and icon selection), `cod` and
`message` (error classification).  An absent JS property is `none`;
`weather := some []` is a present but empty array, distinct from an
absent `weather` property. -/
structure WeatherData where
  name : String
  main : Option WeatherMain
  weather : Option (List WeatherCond)
  cod : Option Int
  message : Option String
  deriving DecidableEq, Repr

/-- The empty object `{}` produced by `res.json().catch(() => ({}))`. -/
def emptyBody : WeatherData :=
  { name := "", main := none, weather := none, cod := none, message := none }

/-- `getWeatherIcon(weatherData, currentUnit)`, source lines 15–84.
The argument is `Option WeatherData` because the caller may pass `null`.
Result `none` models the TypeError raised at line 20
(`weatherData.main.temp`) when the guard at line 16 passed but `main` is
absent; every other path returns `some icon`. -/
def getWeatherIcon (weatherData : Option WeatherData) (currentUnit : String) :
    Option Icon :=
  match weatherData with
  | none => some Icon.cloudy
  | some wd =>
    match wd.weather with
    | none => some Icon.cloudy
    | some ws =>
      match ws with
      | [] => some Icon.cloudy
      | w0 :: _ =>
        match wd.main with
        | none => none
        | some m =>
          let temp := m.temp
          let conditionId := w0.id
          if 200 ≤ conditionId ∧ conditionId < 300 then
            some Icon.storm
          else if (300 ≤ conditionId ∧ conditionId < 400) ∨
                  (500 ≤ conditionId ∧ conditionId < 600) then
            if conditionId = 502 ∨ conditionId = 503 ∨
               conditionId = 504 ∨ conditionId = 522 then
              some Icon.downpour
            else
              some Icon.rainy
          else if 600 ≤ conditionId ∧ conditionId < 700 then
            some Icon.snow
          else if 700 ≤ conditionId ∧ conditionId < 800 then
            some Icon.atmospheric
          else
            let freezing : Rat := if currentUnit = "metric" then 0 else 32
            let cold : Rat := if currentUnit = "metric" then 10 else 50
            let cool : Rat := if currentUnit = "metric" then 15 else 59
            let warm : Rat := if currentUnit = "metric" then 25 else 77
            if temp < freezing then
              some Icon.snow
            else if temp < cold then
              some Icon.cloudy
            else if temp < cool then
              some Icon.cloudy
            else if temp < warm then
              if conditionId = 800 then some Icon.clear else some Icon.cloudy
            else
              some Icon.clear

/-- The `freezing` threshold of source line 52, as a function of the unit. -/
def freezing (u : String) : Rat := if u = "metric" then 0 else 32

/-- The `cold` threshold of source line 53. -/
def cold (u : String) : Rat := if u = "metric" then 10 else 50

/-- The `cool` threshold of source line 54. -/
def cool (u : String) : Rat := if u = "metric" then 15 else 59

/-- The `warm` threshold of source line 55. -/
def warm (u : String) : Rat := if u = "metric" then 25 else 77

/-- A well-formed single-condition body with the given condition code and
temperature, used to instantiate the icon-selection theorems. -/
def mkWeather (code : Int) (temp : Rat) : WeatherData :=
  { name := "", main := some { temp := temp },
    weather := some [{ id := code }], cod := none, message := none }

/-- The error messages the component can put into its `error` state, one
constructor per `setError`/`throw new Error` site of the source:
`missingCredential` is the line-96 message, `unauthorized` line 116,
`notFound` line 119, `rateLimited` line 122, `providerMisconfigured`
line 127, `malformedResponse` the line 136/198 message, `jsonParseError`
the message of the exception `await res.json()` raises on an unparseable
success body, `unknown msg` a dynamically built message (line 130/192),
`locationUnsupported` line 173, `locationDenied` line 213. -/
inductive FetchError where
  | missingCredential
  | unauthorized
  | notFound
  | rateLimited
  | providerMisconfigured
  | malformedResponse
  | jsonParseError
  | unknown (msg : String)
  | locationUnsupported
  | locationDenied
  deriving DecidableEq, Repr

/-- Who a network request is addressed about: `q=city` or `lat`/`lon`. -/
inductive ReqTarget where
  | city (name : String)
  | coords (lat lon : Rat)
  deriving DecidableEq, Repr

/-- One `fetch(url)` call, by the query parameters baked into the URL. -/
structure NetRequest where
  target : ReqTarget
  appid : String
  units : String
  deriving DecidableEq, Repr

/-- The transport's answer to a `fetch` call.  `body := none` means the
body does not parse as JSON (`res.json()` rejects). -/
structure HttpResponse where
  ok : Bool
  status : Nat
  statusText : String
  body : Option WeatherData
  deriving DecidableEq, Repr

/-- The component's React state: `query`, `data`, `loading`, `error`,
`fetchTime`, `unit` (source lines 87–92).  `fetchTime` is an abstract
clock reading (`new Date()` becomes a `Nat`). -/
structure ComponentState where
  query : String
  data : Option WeatherData
  loading : Bool
  error : Option FetchError
  fetchTime : Option Nat
  unit : String
  deriving DecidableEq, Repr

/-- The `useState` initial values of source lines 87–92. -/
def initialState : ComponentState :=
  { query := "", data := none, loading := false, error := none,
    fetchTime := none, unit := "metric" }

/-- JS `x || y` on an optional string: `undefined` and `""` are falsy. -/
def jsOr (x : Option String) (y : String) : String :=
  match x with
  | none => y
  | some s => if s = "" then y else s

/-- JS `s.includes(sub)`: `sub` occurs as a substring of `s`. -/
def jsIncludes (s sub : String) : Bool :=
  (s.splitOn sub).length > 1

/-- `errorData.message?.includes('500000')` with optional chaining:
an absent `message` is falsy. -/
def messageMentions500000 (message : Option String) : Bool :=
  match message with
  | none => false
  | some m => jsIncludes m "500000"

/-- The non-success branch of `fetchWeatherWithUnit`, source lines
111–130: statuses 401/404/429 get dedicated messages, then the
OpenWeatherMap code 500000 is looked for in the body (either as `cod` or
inside `message`), and anything else becomes the provider message or the
raw `Error: status - statusText` string.  `body := none` stands for an
unparseable error body, which `.catch(() => ({}))` turns into `{}`. -/
def classifyHttpError (status : Nat) (statusText : String)
    (body : Option WeatherData) : FetchError :=
  let errorData := body.getD emptyBody
  if status = 401 then
    FetchError.unauthorized
  else if status = 404 then
    FetchError.notFound
  else if status = 429 then
    FetchError.rateLimited
  else if errorData.cod = some 500000 ∨ messageMentions500000 errorData.message then
    FetchError.providerMisconfigured
  else
    FetchError.unknown (jsOr errorData.message s!"Error: {status} - {statusText}")

/-- The state updates a city-name fetch performs right after the API-key
check, source lines 99–101: `setLoading(true)`, `setError('')`,
`setData(null)`. -/
def fetchStartCity (s : ComponentState) : ComponentState :=
  { s with loading := true, error := none, data := none }

/-- The state updates the geolocation path performs before asking for the
position, source lines 177–178: `setLoading(true)`, `setError('')` —
there is no `setData(null)` on this path. -/
def fetchStartGeo (s : ComponentState) : ComponentState :=
  { s with loading := true, error := none }

/-- `fetchWeatherWithUnit(city, specificUnit)`, source lines 94–147, as a
pure function of the module-level `API_KEY`, the HTTP response the
transport would give, and the completion clock reading `now`.  Returns
the component state after the call settles, together with the network
requests issued (source builds one URL with `q`, `appid`, `units` and
calls `fetch` once, or returns before any call when the key is empty). -/
def fetchWeatherWithUnit (apiKey city specificUnit : String)
    (response : HttpResponse) (now : Nat) (s : ComponentState) :
    ComponentState × List NetRequest :=
  if apiKey = "" then
    ({ s with error := some FetchError.missingCredential }, [])
  else
    let s1 := fetchStartCity s
    let req : NetRequest :=
      { target := ReqTarget.city city, appid := apiKey, units := specificUnit }
    if response.ok = false then
      ({ s1 with
         error := some (classifyHttpError response.status response.statusText
                          response.body),
         loading := false }, [req])
    else
      match response.body with
      | none =>
        ({ s1 with error := some FetchError.jsonParseError, loading := false },
         [req])
      | some json =>
        if json.main.isNone ∨ json.weather.isNone then
          ({ s1 with
             error := some FetchError.malformedResponse,
             loading := false }, [req])
        else
          ({ s1 with
             data := some json, fetchTime := some now,
             loading := false }, [req])

/-- `toggleUnit()`, source lines 159–166: flip the unit, and when both
`data` and `query` are truthy re-fetch the current query text under the
new unit (through `fetchWeatherWithUnit`). -/
def toggleUnit (apiKey : String) (response : HttpResponse) (now : Nat)
    (s : ComponentState) : ComponentState × List NetRequest :=
  let newUnit := if s.unit = "metric" then "imperial" else "metric"
  let s1 := { s with unit := newUnit }
  if s.data.isSome ∧ s.query ≠ "" then
    fetchWeatherWithUnit apiKey s.query newUnit response now s1
  else
    (s1, [])

/-- What the host geolocation capability does with the request:
`unsupported` — `navigator.geolocation` is absent; `denied` — the error
callback fires (refusal or timeout); `position` — the success callback
fires with these coordinates. -/
inductive GeoOutcome where
  | unsupported
  | denied
  | position (lat lon : Rat)
  deriving DecidableEq, Repr

/-- `getCurrentLocationWeather()`, source lines 171–216, as a pure
function of the module-level `API_KEY`, the geolocation outcome, the HTTP
response and the clock.  Note the source differences from the city path:
no API-key check, no `setData(null)` at start, no status
classification on error (only `errorData.message || Error: status`), and
on success the place name is written into the query box. -/
def getCurrentLocationWeather (apiKey : String) (geo : GeoOutcome)
    (response : HttpResponse) (now : Nat) (s : ComponentState) :
    ComponentState × List NetRequest :=
  match geo with
  | GeoOutcome.unsupported =>
    ({ s with error := some FetchError.locationUnsupported }, [])
  | GeoOutcome.denied =>
    let s1 := fetchStartGeo s
    ({ s1 with loading := false, error := some FetchError.locationDenied }, [])
  | GeoOutcome.position lat lon =>
    let s1 := fetchStartGeo s
    let req : NetRequest :=
      { target := ReqTarget.coords lat lon, appid := apiKey, units := s.unit }
    if response.ok = false then
      let errorData := response.body.getD emptyBody
      ({ s1 with
         loading := false,
         error := some (FetchError.unknown
           (jsOr errorData.message s!"Error: {response.status}")) }, [req])
    else
      match response.body with
      | none =>
        ({ s1 with
           loading := false,
           error := some FetchError.jsonParseError }, [req])
      | some json =>
        if json.main.isNone ∨ json.weather.isNone then
          ({ s1 with
             loading := false,
             error := some FetchError.malformedResponse }, [req])
        else
          ({ s1 with
             data := some json, fetchTime := some now,
             loading := false, query := json.name }, [req])

/-! Concrete fixtures used by the closed theorems below. -/

/-- A body whose `weather` array is non-empty but whose `main` section is
absent: the line-16 guard passes and line 20 dereferences `undefined`. -/
def missingMainBody : WeatherData :=
  { name := "", main := none, weather := some [{ id := 800 }],
    cod := none, message := none }

/-- A 404 answer with a provider error body. -/
def resp404 : HttpResponse :=
  { ok := false, status := 404, statusText := "Not Found",
    body := some { emptyBody with cod := some 404, message := some "city not found" } }

/-- A 401 answer with an empty error body. -/
def resp401 : HttpResponse :=
  { ok := false, status := 401, statusText := "Unauthorized",
    body := some emptyBody }

/-- A success body whose `weather` array is present but empty. -/
def emptyWeatherJson : WeatherData :=
  { name := "X", main := some { temp := 5 }, weather := some [],
    cod := none, message := none }

/-- A 200 answer carrying `emptyWeatherJson`. -/
def okEmptyWeatherResp : HttpResponse :=
  { ok := true, status := 200, statusText := "OK",
    body := some emptyWeatherJson }

/-- A state displaying a successful London result. -/
def staleSuccessState : ComponentState :=
  { query := "London", data := some (mkWeather 800 21), loading := false,
    error := none, fetchTime := some 7, unit := "metric" }

/-- A state displaying a result while the search box is empty. -/
def resultNoQueryState : ComponentState :=
  { initialState with data := some (mkWeather 800 21) }

/-- A state remembering a capture timestamp from an earlier success. -/
def st9 : ComponentState :=
  { initialState with fetchTime := some 9 }

/-! Helper lemmas shared by the claim theorems. -/

/-- Reduction of `getWeatherIcon` on a body with a present `main` and a
non-empty `weather` array: the line-16 guard passes and the decision is
the nested conditional of lines 28–83. -/
theorem getWeatherIcon_cons (nm : String) (m : WeatherMain)
    (w : WeatherCond) (rest : List WeatherCond) (co : Option Int)
    (ms : Option String) (u : String) :
    getWeatherIcon (some ⟨nm, some m, some (w :: rest), co, ms⟩) u =
      (if 200 ≤ w.id ∧ w.id < 300 then
        some Icon.storm
      else if (300 ≤ w.id ∧ w.id < 400) ∨ (500 ≤ w.id ∧ w.id < 600) then
        if w.id = 502 ∨ w.id = 503 ∨ w.id = 504 ∨ w.id = 522 then
          some Icon.downpour
        else
          some Icon.rainy
      else if 600 ≤ w.id ∧ w.id < 700 then
        some Icon.snow
      else if 700 ≤ w.id ∧ w.id < 800 then
        some Icon.atmospheric
      else if m.temp < freezing u then
        some Icon.snow
      else if m.temp < cold u then
        some Icon.cloudy
      else if m.temp < cool u then
        some Icon.cloudy
      else if m.temp < warm u then
        if w.id = 800 then some Icon.clear else some Icon.cloudy
      else
        some Icon.clear) := rfl

/-- A city-name fetch never changes the `unit` state. -/
theorem fetchWeatherWithUnit_unit_frame (apiKey city u : String)
    (resp : HttpResponse) (now : Nat) (s : ComponentState) :
    (fetchWeatherWithUnit apiKey city u resp now s).1.unit = s.unit := by
  rcases resp with ⟨ok, st, stt, body⟩
  cases body <;>
    simp only [fetchWeatherWithUnit, fetchStartCity] <;>
    split_ifs <;>
    rfl

/-- With a configured key, a city-name fetch issues exactly one request,
for that city with that key and unit. -/
theorem fetchWeatherWithUnit_requests (apiKey city u : String)
    (resp : HttpResponse) (now : Nat) (s : ComponentState) (hk : apiKey ≠ "") :
    (fetchWeatherWithUnit apiKey city u resp now s).2
      = [{ target := ReqTarget.city city, appid := apiKey, units := u }] := by
  rcases resp with ⟨ok, st, stt, body⟩
  cases body <;>
    simp only [fetchWeatherWithUnit, fetchStartCity, if_neg hk] <;>
    split_ifs <;>
    rfl

/-- With a configured key, the `data` a city-name fetch leaves behind is
either `null` or the parsed response body itself — never a value derived
from the previous state. -/
theorem fetchWeatherWithUnit_data_fromResponse (apiKey city u : String)
    (resp : HttpResponse) (now : Nat) (s : ComponentState) (hk : apiKey ≠ "") :
    (fetchWeatherWithUnit apiKey city u resp now s).1.data = none
  ∨ ∃ j, resp.body = some j
      ∧ (fetchWeatherWithUnit apiKey city u resp now s).1.data = some j := by
  rcases resp with ⟨ok, st, stt, body⟩
  cases body with
  | none =>
    left
    simp only [fetchWeatherWithUnit, fetchStartCity, if_neg hk]
    split_ifs <;> rfl
  | some json =>
    simp only [fetchWeatherWithUnit, fetchStartCity, if_neg hk]
    split_ifs
    · left; rfl
    · left; rfl
    · right; exact ⟨json, rfl, rfl⟩

/-! The claim theorems. -/

/-- Claim C1: for every condition code in a severe-weather family, the
selected icon is determined by the code alone — for every temperature,
every unit and every remaining field of the body: codes in [200,300)
give Storm; codes in [300,400) or [500,600) give Downpour exactly when
the code is one of 502, 503, 504, 522 and Rainy otherwise; codes in
[600,700) give Snow; codes in [700,800) give Atmospheric. -/
theorem selectIcon_severe_families (d : WeatherData) (u : String)
    (m : WeatherMain) (w : WeatherCond) (rest : List WeatherCond)
    (hm : d.main = some m) (hw : d.weather = some (w :: rest)) :
    (200 ≤ w.id ∧ w.id < 300 → getWeatherIcon (some d) u = some Icon.storm)
  ∧ ((300 ≤ w.id ∧ w.id < 400) ∨ (500 ≤ w.id ∧ w.id < 600) →
      ((w.id = 502 ∨ w.id = 503 ∨ w.id = 504 ∨ w.id = 522 →
          getWeatherIcon (some d) u = some Icon.downpour)
      ∧ (¬(w.id = 502 ∨ w.id = 503 ∨ w.id = 504 ∨ w.id = 522) →
          getWeatherIcon (some d) u = some Icon.rainy)))
  ∧ (600 ≤ w.id ∧ w.id < 700 → getWeatherIcon (some d) u = some Icon.snow)
  ∧ (700 ≤ w.id ∧ w.id < 800 → getWeatherIcon (some d) u = some Icon.atmospheric) := by
  obtain ⟨nm, mo, wo, co, ms⟩ := d
  simp only at hm hw
  subst hm; subst hw
  simp only [getWeatherIcon]
  refine ⟨?_, ?_, ?_, ?_⟩
  · intro h
    rw [if_pos h]
  · intro h
    refine ⟨?_, ?_⟩ <;> intro h2
    · rw [if_neg (by omega), if_pos h, if_pos h2]
    · rw [if_neg (by omega), if_pos h, if_neg h2]
  · intro h
    rw [if_neg (by omega), if_neg (by omega), if_pos h]
  · intro h
    rw [if_neg (by omega), if_neg (by omega), if_neg (by omega), if_pos h]

/-- Witness for C1: thunderstorm code 211 at a hot imperial temperature
still gives Storm. -/
theorem selectIcon_severe_families_witness :
    getWeatherIcon (some (mkWeather 211 100)) "imperial" = some Icon.storm :=
  (selectIcon_severe_families (mkWeather 211 100) "imperial" ⟨100⟩ ⟨211⟩ []
    rfl rfl).1 (by decide)

/-- Claim C2: for every condition code at least 800 and every unit, the
icon follows the temperature bands with the unit-scaled thresholds
freezing, cold, cool, warm — equal to 0, 10, 15, 25 for metric and
32, 50, 59, 77 for imperial: below freezing Snow, from freezing up to
cool Cloudy, from cool up to warm Clear exactly for code 800 and Cloudy
otherwise, and from warm upward Clear. -/
theorem selectIcon_tempBands (d : WeatherData) (u : String)
    (m : WeatherMain) (w : WeatherCond) (rest : List WeatherCond)
    (hm : d.main = some m) (hw : d.weather = some (w :: rest))
    (hc : 800 ≤ w.id) :
    (freezing "metric" = 0 ∧ cold "metric" = 10 ∧ cool "metric" = 15
       ∧ warm "metric" = 25)
  ∧ (freezing "imperial" = 32 ∧ cold "imperial" = 50 ∧ cool "imperial" = 59
       ∧ warm "imperial" = 77)
  ∧ (m.temp < freezing u → getWeatherIcon (some d) u = some Icon.snow)
  ∧ (freezing u ≤ m.temp → m.temp < cool u →
       getWeatherIcon (some d) u = some Icon.cloudy)
  ∧ (cool u ≤ m.temp → m.temp < warm u → w.id = 800 →
       getWeatherIcon (some d) u = some Icon.clear)
  ∧ (cool u ≤ m.temp → m.temp < warm u → w.id ≠ 800 →
       getWeatherIcon (some d) u = some Icon.cloudy)
  ∧ (warm u ≤ m.temp → getWeatherIcon (some d) u = some Icon.clear) := by
  obtain ⟨nm, mo, wo, co, ms⟩ := d
  simp only at hm hw
  subst hm; subst hw
  have hfc : freezing u ≤ cold u := by
    unfold freezing cold; split_ifs <;> norm_num
  have hcc : cold u ≤ cool u := by
    unfold cold cool; split_ifs <;> norm_num
  have hcw : cool u ≤ warm u := by
    unfold cool warm; split_ifs <;> norm_num
  refine ⟨by decide, by decide, ?_, ?_, ?_, ?_, ?_⟩
  · intro h1
    rw [getWeatherIcon_cons, if_neg (by omega), if_neg (by omega),
      if_neg (by omega), if_neg (by omega), if_pos h1]
  · intro h1 h2
    rw [getWeatherIcon_cons, if_neg (by omega), if_neg (by omega),
      if_neg (by omega), if_neg (by omega), if_neg (not_lt.mpr h1)]
    by_cases h3 : m.temp < cold u
    · rw [if_pos h3]
    · rw [if_neg h3, if_pos h2]
  · intro h1 h2 h3
    rw [getWeatherIcon_cons, if_neg (by omega), if_neg (by omega),
      if_neg (by omega), if_neg (by omega), if_neg (by linarith),
      if_neg (by linarith), if_neg (not_lt.mpr h1), if_pos h2, if_pos h3]
  · intro h1 h2 h3
    rw [getWeatherIcon_cons, if_neg (by omega), if_neg (by omega),
      if_neg (by omega), if_neg (by omega), if_neg (by linarith),
      if_neg (by linarith), if_neg (not_lt.mpr h1), if_pos h2, if_neg h3]
  · intro h1
    rw [getWeatherIcon_cons, if_neg (by omega), if_neg (by omega),
      if_neg (by omega), if_neg (by omega), if_neg (by linarith),
      if_neg (by linarith), if_neg (by linarith), if_neg (not_lt.mpr h1)]

/-- Witness for C2: code 801 at 12 degrees metric sits in the
freezing-to-cool band and gives Cloudy. -/
theorem selectIcon_tempBands_witness :
    freezing "metric" ≤ 12 ∧ (12:Rat) < cool "metric" ∧
      getWeatherIcon (some (mkWeather 801 12)) "metric" = some Icon.cloudy :=
  ⟨by decide, by decide,
    (selectIcon_tempBands (mkWeather 801 12) "metric" ⟨12⟩ ⟨801⟩ [] rfl rfl
      (by decide)).2.2.2.1 (by decide) (by decide)⟩

/-- Counterexample to C3 as stated: a body with a non-empty `weather`
array but no `main` section passes the line-16 guard and crashes at
line 20 (`weatherData.main.temp` on `undefined`) — modelled as result
`none` — instead of returning Cloudy. -/
theorem selectIcon_missingMain_crashes :
    getWeatherIcon (some missingMainBody) "metric" = none
  ∧ getWeatherIcon (some missingMainBody) "metric" ≠ some Icon.cloudy := by
  decide

/-- Claim C3 (amended): the icon selector is a pure deterministic
function; absent data, an absent `weather` array and an empty `weather`
array all give Cloudy, and for every input whose `main` section is
present it returns an icon — but a body with a non-empty `weather` array
and a missing `main` section raises a TypeError instead of returning
Cloudy. -/
theorem selectIcon_guarded_totality (u : String) :
    getWeatherIcon none u = some Icon.cloudy
  ∧ (∀ d : WeatherData, d.weather = none →
       getWeatherIcon (some d) u = some Icon.cloudy)
  ∧ (∀ d : WeatherData, d.weather = some [] →
       getWeatherIcon (some d) u = some Icon.cloudy)
  ∧ (∀ d : WeatherData, d.main.isSome → (getWeatherIcon (some d) u).isSome) := by
  refine ⟨rfl, ?_, ?_, ?_⟩
  · rintro ⟨nm, mo, wo, co, ms⟩ hw
    simp only at hw
    subst hw
    rfl
  · rintro ⟨nm, mo, wo, co, ms⟩ hw
    simp only at hw
    subst hw
    rfl
  · rintro ⟨nm, mo, wo, co, ms⟩ hmo
    simp only [Option.isSome] at hmo
    obtain ⟨m, rfl⟩ : ∃ m, mo = some m := by
      cases mo
      · exact absurd hmo (by simp)
      · exact ⟨_, rfl⟩
    match wo with
    | none => exact rfl
    | some [] => exact rfl
    | some (w :: rest) =>
      rw [getWeatherIcon_cons]
      split_ifs <;> rfl

/-- Witness for C3 (amended): a fog body with `main` present gets an
icon. -/
theorem selectIcon_guarded_totality_witness :
    (getWeatherIcon (some (mkWeather 700 3)) "imperial").isSome :=
  (selectIcon_guarded_totality "imperial").2.2.2 (mkWeather 700 3) rfl

/-- Counterexample to C4 as stated: a success response whose body has a
present `main` and a present but empty `weather` array is accepted as
the new result — the line-135 check `!json.weather` does not fail on an
empty array — where the claim demands MalformedResponse. -/
theorem fetch_accepts_emptyWeatherList :
    (fetchWeatherWithUnit "k" "Paris" "metric" okEmptyWeatherResp 3
        initialState).1.data = some emptyWeatherJson
  ∧ (fetchWeatherWithUnit "k" "Paris" "metric" okEmptyWeatherResp 3
        initialState).1.error = none
  ∧ emptyWeatherJson.weather = some [] := by decide

/-- Claim C4 (amended): on a fetch whose HTTP status is success, if the
body lacks the `main` section or lacks the `weather` key entirely, both
fetch paths fail with MalformedResponse and the city path produces no
data; if both keys are present — even with an empty `weather` array —
the body is accepted as the new result. -/
theorem fetch_success_body_validation (apiKey city u : String)
    (resp : HttpResponse) (now : Nat) (s : ComponentState) (json : WeatherData)
    (lat lon : Rat)
    (hk : apiKey ≠ "") (hok : resp.ok = true) (hb : resp.body = some json) :
    ((json.main = none ∨ json.weather = none) →
       (fetchWeatherWithUnit apiKey city u resp now s).1.error
           = some FetchError.malformedResponse
     ∧ (fetchWeatherWithUnit apiKey city u resp now s).1.data = none
     ∧ (getCurrentLocationWeather apiKey (GeoOutcome.position lat lon) resp now s).1.error
           = some FetchError.malformedResponse)
  ∧ (∀ m0 ws, json.main = some m0 → json.weather = some ws →
       (fetchWeatherWithUnit apiKey city u resp now s).1.data = some json
     ∧ (fetchWeatherWithUnit apiKey city u resp now s).1.error = none
     ∧ (getCurrentLocationWeather apiKey (GeoOutcome.position lat lon) resp now s).1.data
           = some json) := by
  have hok2 : ¬(resp.ok = false) := by simp [hok]
  constructor
  · intro h
    have h2 : json.main.isNone = true ∨ json.weather.isNone = true := by
      rcases h with h | h <;> simp [h]
    simp only [fetchWeatherWithUnit, getCurrentLocationWeather, fetchStartCity,
      fetchStartGeo, if_neg hk, if_neg hok2, hb, if_pos h2]
    refine ⟨?_, ?_, ?_⟩ <;> first | rfl | trivial
  · intro m0 ws hm0 hw0
    have h2 : ¬(json.main.isNone = true ∨ json.weather.isNone = true) := by
      simp [hm0, hw0]
    simp only [fetchWeatherWithUnit, getCurrentLocationWeather, fetchStartCity,
      fetchStartGeo, if_neg hk, if_neg hok2, hb, if_neg h2]
    refine ⟨?_, ?_, ?_⟩ <;> first | rfl | trivial

/-- Witness for C4 (amended): a 200 answer whose body is the empty
object is rejected as malformed. -/
theorem fetch_success_body_validation_witness :
    (fetchWeatherWithUnit "k" "Paris" "metric"
        { ok := true, status := 200, statusText := "OK",
          body := some emptyBody } 3 initialState).1.error
      = some FetchError.malformedResponse :=
  ((fetch_success_body_validation "k" "Paris" "metric"
      { ok := true, status := 200, statusText := "OK", body := some emptyBody }
      3 initialState emptyBody 1 2 (by decide) rfl rfl).1
    (Or.inl rfl)).1

/-- Counterexample to C5 as stated: with no API key configured, the
geolocation path still issues its network request (with an empty
`appid`) and never reports MissingCredential. -/
theorem geoFetch_missingKey_stillFetches :
    (getCurrentLocationWeather "" (GeoOutcome.position 1 2) resp404 0
        initialState).2.length = 1
  ∧ (getCurrentLocationWeather "" (GeoOutcome.position 1 2) resp404 0
        initialState).1.error ≠ some FetchError.missingCredential := by decide

/-- Claim C5 (amended): only the city-name fetch checks the API key —
with an absent key it fails immediately with MissingCredential, changes
nothing else and makes zero network calls — while the geolocation path
performs its one network call regardless of the key. -/
theorem missingKey_cityChecked_geoUnchecked (city u : String)
    (resp : HttpResponse) (now : Nat) (s : ComponentState) (lat lon : Rat) :
    fetchWeatherWithUnit "" city u resp now s
        = ({ s with error := some FetchError.missingCredential }, [])
  ∧ (getCurrentLocationWeather "" (GeoOutcome.position lat lon) resp now s).2
        = [{ target := ReqTarget.coords lat lon, appid := "", units := s.unit }] := by
  constructor
  · rfl
  · rcases resp with ⟨ok, st, stt, body⟩
    cases body <;>
      simp only [getCurrentLocationWeather, fetchStartGeo] <;>
      split_ifs <;>
      rfl

/-- Counterexample to C6 as stated: the geolocation fetch start keeps
the prior Success payload — `data` is not cleared. -/
theorem geoStart_retainsStaleData :
    (fetchStartGeo staleSuccessState).loading = true
  ∧ (fetchStartGeo staleSuccessState).data ≠ none
  ∧ (fetchStartGeo staleSuccessState).data = some (mkWeather 800 21) := by
  decide

/-- Claim C6 (amended): a city-submit or unit-toggle fetch start
immediately sets loading and clears both the prior error and the prior
data, while a geolocation fetch start sets loading and clears the error
but retains the prior data until completion. -/
theorem fetchStart_loading_and_payload (s : ComponentState) :
    (fetchStartCity s).loading = true
  ∧ (fetchStartCity s).error = none
  ∧ (fetchStartCity s).data = none
  ∧ (fetchStartGeo s).loading = true
  ∧ (fetchStartGeo s).error = none
  ∧ (fetchStartGeo s).data = s.data :=
  ⟨rfl, rfl, rfl, rfl, rfl, rfl⟩

/-- Counterexample to C7 as stated: a geolocation fetch answered with
HTTP 401 is not classified Unauthorized — it yields the generic
`Error: 401` message. -/
theorem geoFetch_401_not_unauthorized :
    (getCurrentLocationWeather "k" (GeoOutcome.position 1 2) resp401 0
        initialState).1.error = some (FetchError.unknown "Error: 401")
  ∧ (getCurrentLocationWeather "k" (GeoOutcome.position 1 2) resp401 0
        initialState).1.error ≠ some FetchError.unauthorized := by decide

/-- Claim C7 (amended): a city-name fetch completing with a non-success
status classifies its error as: 401 Unauthorized, 404 NotFound,
429 RateLimited, then provider code 500000 found in the body — as the
`cod` field or inside the message, an unparseable body counting as the
empty object — ProviderMisconfigured, and anything else Unknown carrying
the provider message or the raw status and reason; the geolocation fetch
instead maps every non-success status to Unknown carrying the provider
message or `Error: status`. -/
theorem httpError_classification (status : Nat) (stText : String)
    (body : Option WeatherData) (apiKey city u : String) (resp : HttpResponse)
    (now : Nat) (s : ComponentState) (lat lon : Rat)
    (hk : apiKey ≠ "") (hok : resp.ok = false) :
    ((fetchWeatherWithUnit apiKey city u resp now s).1.error
        = some (classifyHttpError resp.status resp.statusText resp.body))
  ∧ (status = 401 → classifyHttpError status stText body = FetchError.unauthorized)
  ∧ (status = 404 → status ≠ 401 →
      classifyHttpError status stText body = FetchError.notFound)
  ∧ (status = 429 → status ≠ 401 → status ≠ 404 →
      classifyHttpError status stText body = FetchError.rateLimited)
  ∧ (status ≠ 401 → status ≠ 404 → status ≠ 429 →
      ((body.getD emptyBody).cod = some 500000
          ∨ messageMentions500000 (body.getD emptyBody).message = true →
        classifyHttpError status stText body = FetchError.providerMisconfigured))
  ∧ (status ≠ 401 → status ≠ 404 → status ≠ 429 →
      ¬((body.getD emptyBody).cod = some 500000
          ∨ messageMentions500000 (body.getD emptyBody).message = true) →
        classifyHttpError status stText body
          = FetchError.unknown (jsOr (body.getD emptyBody).message
              s!"Error: {status} - {stText}"))
  ∧ ((getCurrentLocationWeather apiKey (GeoOutcome.position lat lon) resp
        now s).1.error
      = some (FetchError.unknown (jsOr (resp.body.getD emptyBody).message
          s!"Error: {resp.status}"))) := by
  refine ⟨?_, ?_, ?_, ?_, ?_, ?_, ?_⟩
  · simp only [fetchWeatherWithUnit, fetchStartCity, if_neg hk, if_pos hok]
  · intro h1
    simp only [classifyHttpError, if_pos h1]
  · intro h1 h2
    simp only [classifyHttpError, if_neg h2, if_pos h1]
  · intro h1 h2 h3
    simp only [classifyHttpError, if_neg h2, if_neg h3, if_pos h1]
  · intro h1 h2 h3 h4
    simp only [classifyHttpError, if_neg h1, if_neg h2, if_neg h3, if_pos h4]
  · intro h1 h2 h3 h4
    simp only [classifyHttpError, if_neg h1, if_neg h2, if_neg h3, if_neg h4]
  · simp only [getCurrentLocationWeather, fetchStartGeo, if_pos hok]

/-- Witness for C7 (amended): status 404 classifies as NotFound. -/
theorem httpError_classification_witness :
    classifyHttpError 404 "Not Found" resp404.body = FetchError.notFound :=
  (httpError_classification 404 "Not Found" resp404.body "k" "Paris" "metric"
      resp404 0 initialState 1 2 (by decide) rfl).2.2.1 rfl (by decide)

/-- Counterexample to C8 as stated: with a Success result displayed but
the search box cleared, toggling the unit triggers no fetch at all. -/
theorem toggle_withResult_emptyQuery_noFetch :
    resultNoQueryState.data.isSome = true
  ∧ (toggleUnit "k" resp404 0 resultNoQueryState).2 = [] := by decide

/-- Claim C8 (amended): toggling always flips the unit; when a result is
present and the current query text is non-empty (and the API key is
configured) it triggers exactly one fetch, for the current query text —
not necessarily the query that produced the displayed result — under the
new unit; otherwise it changes the unit and nothing else and triggers no
fetch; and the toggle never converts the stored data client-side — after
a refetch the data is `null` or comes verbatim from the response. -/
theorem toggleUnit_spec (apiKey : String) (resp : HttpResponse) (now : Nat)
    (s : ComponentState) (hk : apiKey ≠ "") :
    ((toggleUnit apiKey resp now s).1.unit
        = (if s.unit = "metric" then "imperial" else "metric"))
  ∧ (s.data.isSome = true ∧ s.query ≠ "" →
      (toggleUnit apiKey resp now s).2
        = [{ target := ReqTarget.city s.query, appid := apiKey,
             units := if s.unit = "metric" then "imperial" else "metric" }])
  ∧ (¬(s.data.isSome = true ∧ s.query ≠ "") →
      toggleUnit apiKey resp now s
        = ({ s with unit := if s.unit = "metric" then "imperial" else "metric" }, []))
  ∧ (s.data.isSome = true ∧ s.query ≠ "" →
      (toggleUnit apiKey resp now s).1.data = none
    ∨ ∃ j, resp.body = some j
        ∧ (toggleUnit apiKey resp now s).1.data = some j) := by
  by_cases hcond : s.data.isSome = true ∧ s.query ≠ ""
  · refine ⟨?_, ?_, ?_, ?_⟩
    · simp only [toggleUnit, if_pos hcond]
      rw [fetchWeatherWithUnit_unit_frame]
    · intro _
      simp only [toggleUnit, if_pos hcond]
      rw [fetchWeatherWithUnit_requests _ _ _ _ _ _ hk]
    · intro h
      exact absurd hcond h
    · intro _
      simp only [toggleUnit, if_pos hcond]
      exact fetchWeatherWithUnit_data_fromResponse _ _ _ _ _ _ hk
  · refine ⟨?_, ?_, ?_, ?_⟩
    · simp only [toggleUnit, if_neg hcond]
    · intro h
      exact absurd h hcond
    · intro _
      simp only [toggleUnit, if_neg hcond]
    · intro h
      exact absurd h hcond

/-- Witness for C8 (amended): toggling on the London Success state
issues exactly one request for London under the flipped unit. -/
theorem toggleUnit_spec_witness :
    (toggleUnit "k" resp404 0 staleSuccessState).2
      = [{ target := ReqTarget.city staleSuccessState.query, appid := "k",
           units := if staleSuccessState.unit = "metric" then "imperial"
                    else "metric" }] :=
  (toggleUnit_spec "k" resp404 0 staleSuccessState (by decide)).2.1
    ⟨by decide, by decide⟩

/-- Claim C9: at the warm boundary the units agree — code 800 at 77
imperial selects the same icon as code 800 at 25 metric, and both give
Clear. -/
theorem selectIcon_warmBoundary_unitEquivalence :
    getWeatherIcon (some (mkWeather 800 77)) "imperial" =
      getWeatherIcon (some (mkWeather 800 25)) "metric"
  ∧ getWeatherIcon (some (mkWeather 800 25)) "metric" = some Icon.clear := by
  decide

/-- Claim C10: every city-name fetch that passed the API-key check and
completes with an error leaves `data` null — a Failed state never
coexists with a stale Success payload — and leaves `fetchTime` exactly
as it was before the call. -/
theorem cityFetch_error_frame (apiKey city u : String) (resp : HttpResponse)
    (now : Nat) (s : ComponentState) (hk : apiKey ≠ "")
    (herr : (fetchWeatherWithUnit apiKey city u resp now s).1.error ≠ none) :
    (fetchWeatherWithUnit apiKey city u resp now s).1.data = none
  ∧ (fetchWeatherWithUnit apiKey city u resp now s).1.fetchTime = s.fetchTime := by
  rcases resp with ⟨ok, st, stt, body⟩
  cases body <;>
    simp only [fetchWeatherWithUnit, fetchStartCity, if_neg hk] at herr ⊢ <;>
    split_ifs at herr ⊢ <;>
    first
      | exact ⟨rfl, rfl⟩
      | exact absurd rfl herr

/-- Witness for C10: a 404 completion keeps the earlier capture
timestamp and holds no data. -/
theorem cityFetch_error_frame_witness :
    (fetchWeatherWithUnit "k" "Paris" "metric" resp404 3 st9).1.data = none
  ∧ (fetchWeatherWithUnit "k" "Paris" "metric" resp404 3 st9).1.fetchTime
      = st9.fetchTime :=
  cityFetch_error_frame "k" "Paris" "metric" resp404 3 st9 (by decide) (by decide)

end WeatherApp
